import Mathlib

/-!
Verification of the Dragon Soul loot-priority analysis engine
(`loot_analysis_enhanced.py`, with the alternative classifier of
`dragon-soul-loot/app/data_processor.py`), as a shallow embedding in Lean.

Conventions of the embedding:
* Python dicts become insertion-ordered association lists (`List (String × β)`)
  with lookup / assignment / increment helpers that mirror dict semantics.
* Python floats become `ℚ` (all constants in the source are decimal fractions,
  and the claims concern the algebra of the score formulas, not rounding).
* Python sets become lists deduplicated on first occurrence (the source's set
  iteration order is arbitrary; the embedding fixes one deterministic order).
* A pandas row becomes a record of `Option String` cells (`none` models a
  missing column or NaN); the ".1"-suffixed duplicate-column lookup of
  `get_column_name` is abstracted into a single optional cell.
-/

namespace DragonSoul

/-- Whether the character list `pre` is an initial segment of `l`. -/
def listStarts : List Char → List Char → Bool
  | [], _ => true
  | _ :: _, [] => false
  | a :: as, b :: bs => a = b && listStarts as bs

/-- Auxiliary scan for substring containment over character lists. -/
def containsAux (needle : List Char) : List Char → Bool
  | [] => needle.isEmpty
  | c :: rest => listStarts needle (c :: rest) || containsAux needle rest

/-- Python's `needle in hay` on strings: substring containment (the empty
needle is contained in everything). -/
def containsStr (hay needle : String) : Bool :=
  containsAux needle.toList hay.toList

/-- Lower-case one character, modelling Python's `str.lower` for the ASCII
repertoire (every accented letter appearing in this repository's tables is
already lower-case). -/
def lowerChar (c : Char) : Char :=
  if 'A' ≤ c && c ≤ 'Z' then Char.ofNat (c.toNat + 32) else c

/-- Python's `str.lower` (see `lowerChar`). -/
def strLower (s : String) : String := String.mk (s.toList.map lowerChar)

/-- Whitespace for `str.strip`. -/
def isSpaceChar (c : Char) : Bool := c = ' ' || c = '\t' || c = '\n' || c = '\r'

/-- Drop leading whitespace characters. -/
def dropLeading : List Char → List Char
  | [] => []
  | c :: rest => if isSpaceChar c then dropLeading rest else c :: rest

/-- Python's `str.strip`: drop leading and trailing whitespace. -/
def strTrim (s : String) : String :=
  String.mk ((dropLeading ((dropLeading s.toList.reverse)).reverse))

/-- Python's `str.startswith`. -/
def strStarts (s pre : String) : Bool := listStarts pre.toList s.toList

/-- Dict lookup on an association list (first binding wins, as in a dict with
unique keys). -/
def alookup {β : Type} (k : String) : List (String × β) → Option β
  | [] => none
  | e :: rest => if e.1 = k then some e.2 else alookup k rest

/-- Dict assignment `d[k] = v`: replace in place, else append. -/
def aset {β : Type} (k : String) (v : β) : List (String × β) → List (String × β)
  | [] => [(k, v)]
  | e :: rest => if e.1 = k then (k, v) :: rest else e :: aset k v rest

/-- `defaultdict(int)` increment `d[k] += n`. -/
def abump (k : String) (n : Nat) : List (String × Nat) → List (String × Nat)
  | [] => [(k, n)]
  | e :: rest => if e.1 = k then (e.1, e.2 + n) :: rest else e :: abump k n rest

/-- Set insertion `s.add(x)` for a set modelled as a duplicate-free list. -/
def addOnce (x : String) (l : List String) : List String :=
  if l.contains x then l else l ++ [x]

/-- Nested `defaultdict(lambda: defaultdict(int))` increment `d[p][k] += 1`. -/
def abump2 (p k : String) (l : List (String × List (String × Nat))) :
    List (String × List (String × Nat)) :=
  aset p (abump k 1 ((alookup p l).getD [])) l

/-- Manual alias table `manual_mappings` of the analyzer. -/
def manual_mappings : List (String × String) :=
  [("saoki", "saokipriest"), ("ruskov", "rùskøv"), ("pepsi", "pepsícola"),
   ("delusive", "ðelusive"), ("ricardo", "ricardomìlos"),
   ("overdeath", "ooverdeath"), ("borrann", "borran")]

/-- Keys of the manual alias table. -/
def manual_keys : List String := manual_mappings.map (fun e => e.1)

/-- PUG marker substrings `pug_identifiers`. -/
def pug_identifiers : List String := ["-pug", "-good pug"]

/-- Explicit exclusion list `exclude_players`. -/
def exclude_players : List String :=
  ["Ifbbathlete", "Andrewd", "Rewolut", "Corwor", "anotherpug"]

/-- Dragon Soul has 8 bosses (`total_bosses`). -/
def total_bosses : Nat := 8

/-- Map of file-name patterns to the number of bosses the file covers
(`file_to_bosses`, insertion order preserved). -/
def file_to_bosses : List (String × Nat) :=
  [("25man_58", 5), ("10man_war_spine", 2), ("10man_madness", 1)]

/-- The tweakable scoring parameters of the analyzer, with the source's
values as defaults (`attendance_weight = 0.4`, `item_penalty_multiplier = 40`,
`token_penalty_reduction = 0.5`, `raid_25_percent_bonus = 0.25`). -/
structure Config where
  attendance_weight : ℚ := 2 / 5
  item_penalty_multiplier : ℚ := 40
  token_penalty_reduction : ℚ := 1 / 2
  raid_25_percent_bonus : ℚ := 1 / 4
deriving Repr

/-- The analyzer's configuration as shipped. -/
def defaultConfig : Config := {}

/-- Strip one combining accent, modelling `unicodedata.normalize('NFD', s)`
followed by removal of Mn-category marks, for the accented Latin letters that
occur in this repository's data. Letters such as ø and ð have no canonical
decomposition and are kept, exactly as NFD keeps them. -/
def stripChar (c : Char) : Char :=
  if c = 'ù' then 'u'
  else if c = 'í' then 'i'
  else if c = 'ì' then 'i'
  else if c = 'é' then 'e'
  else if c = 'á' then 'a'
  else c

/-- Diacritic-stripped form of a name (see `stripChar`). -/
def stripDiacritics (s : String) : String := String.mk (s.toList.map stripChar)

/-- `is_pug`: a missing name, a name on the exclusion list (case-insensitive
exact match after trimming) or a name containing a PUG marker substring
(case-insensitive). -/
def is_pug : Option String → Bool
  | none => true
  | some n =>
    (exclude_players.map strLower).contains (strTrim (strLower n))
      || pug_identifiers.any (fun idf => containsStr (strLower n) (strLower idf))

/-- `normalize_name` on a present name: lower-case and trim, then apply the
manual mapping, then apply the auto-detected `name_mapping` to the result. -/
def normalize_plain (mapping : List (String × String)) (name : String) : String :=
  let n1 := strTrim (strLower name)
  let n2 := (alookup n1 manual_mappings).getD n1
  (alookup n2 mapping).getD n2

/-- `normalize_name` (None propagates, as for a NaN cell). -/
def normalize_name (mapping : List (String × String)) : Option String → Option String
  | none => none
  | some n => some (normalize_plain mapping n)

/-- One tabular input row. `item` is only meaningful in loot files (the source
reads `row['Item']` there unconditionally). -/
structure Row where
  ign : Option String
  cls : Option String
  spec : Option String
  token : Option String
  role : Option String
  realName : Option String
  item : String
deriving Repr, DecidableEq

/-- The per-player profile dictionary built by `extract_player_info`. -/
structure PInfo where
  player : String
  cls : String
  spec : String
  token : String
  role : String
  originalIgn : String
  primaryStat : String
deriving Repr, DecidableEq

/-- `get_player_primary_stat`: the `class_to_primary_stat` table; for classes
with spec-dependent stats an unknown spec falls back to the table's first
value, exactly as `next(iter(stat_info.values()))` does. -/
def gps (cls spec : String) : String :=
  if cls = "DK" then "Strength"
  else if cls = "Druid" then
    (if spec = "Balance" then "Intellect"
     else if spec = "Feral" then "Agility"
     else if spec = "Restoration" then "Intellect" else "Intellect")
  else if cls = "Hunter" then "Agility"
  else if cls = "Mage" then "Intellect"
  else if cls = "Paladin" then
    (if spec = "Holy" then "Intellect"
     else if spec = "Protection" then "Strength"
     else if spec = "Retribution" then "Strength" else "Intellect")
  else if cls = "Priest" then "Intellect"
  else if cls = "Rogue" then "Agility"
  else if cls = "Shaman" then
    (if spec = "Elemental" then "Intellect"
     else if spec = "Enhancement" then "Agility"
     else if spec = "Restoration" then "Intellect" else "Intellect")
  else if cls = "Warlock" then "Intellect"
  else if cls = "Warrior" then "Strength"
  else "Unknown"

/-- A cell with the source's `x if x and not isna(x) else 'Unknown'` fallback. -/
def orUnknown : Option String → String
  | none => "Unknown"
  | some s => if s = "" then "Unknown" else s

/-- The profile dictionary assembled by `extract_player_info` for a row whose
raw name `ign` normalized to `pname`. -/
def mkInfo (row : Row) (pname ign : String) : PInfo :=
  { player := row.realName.getD pname,
    cls := orUnknown row.cls,
    spec := orUnknown row.spec,
    token := orUnknown row.token,
    role := orUnknown row.role,
    originalIgn := ign,
    primaryStat :=
      match row.cls with
      | none => "Unknown"
      | some c => if c = "" then "Unknown" else gps c (orUnknown row.spec) }

/-- `extract_player_info`: returns the canonical name and profile, or nothing
for a missing name, a PUG, or a name that normalizes to the empty string. -/
def extract_player_info (mapping : List (String × String)) (row : Row) :
    Option (String × PInfo) :=
  match row.ign with
  | none => none
  | some ign =>
    if is_pug (some ign) then none
    else
      let pname := normalize_plain mapping ign
      if pname = "" then none
      else some (pname, mkInfo row pname ign)

/-- Token-slot detection inside `extract_token_info` (case-sensitive matching
on the original display name). -/
def token_slot_of (item : String) : String :=
  if containsStr item "Helm" || containsStr item "Crown" then "head"
  else if containsStr item "Shoulder" || containsStr item "Spaulders" then "shoulder"
  else if containsStr item "Chest" || containsStr item "Robe" then "chest"
  else if containsStr item "Gauntlet" || containsStr item "Gloves"
            || containsStr item "Hand" then "hands"
  else if containsStr item "Leg" || containsStr item "Kilt"
            || containsStr item "Pants" then "legs"
  else "unknown"

/-- `extract_token_info`: token type and token slot of an item name, or
`(none, none)` when the name is no token at all. -/
def extract_token_info (item : String) : Option String × Option String :=
  if !(containsStr item "Corrupted") then (none, none)
  else
    match ["Vanquisher", "Conqueror", "Protector"].find?
        (fun t => containsStr item t) with
    | none => (none, none)
    | some t => (some t, some (token_slot_of item))

/-- Slot categories with their importance weights (`slot_categories`). -/
def slot_categories : List (String × ℚ) :=
  [("head", 3/2), ("chest", 3/2), ("legs", 3/2), ("weapon", 3/2), ("trinket", 3/2),
   ("shoulder", 13/10), ("hands", 13/10),
   ("waist", 6/5), ("feet", 6/5),
   ("wrist", 11/10),
   ("neck", 1), ("finger", 1), ("back", 6/5), ("ranged", 1), ("off-hand", 6/5)]

/-- The trinket keyword list `slot_keywords['trinket']`. -/
def trinket_keywords : List String :=
  ["trinket", "charm", "fetish", "idol", "totem", "insignia", "vial"]

/-- Keywords identifying item slots (`slot_keywords`, insertion order). -/
def slot_keywords : List (String × List String) :=
  [("head", ["helm", "hood", "crown", "cowl", "headpiece"]),
   ("shoulder", ["shoulder", "spaulder", "mantle", "amice"]),
   ("chest", ["chest", "robe", "tunic", "hauberk", "breastplate"]),
   ("wrist", ["wrist", "bracer", "vambrace"]),
   ("hands", ["glove", "gauntlet", "handguard", "hand"]),
   ("waist", ["belt", "waist", "girdle", "cord", "sash"]),
   ("legs", ["leg", "pant", "kilt", "legging", "greave"]),
   ("feet", ["boot", "treads", "foot", "sandal", "shoe", "sabatons"]),
   ("neck", ["neck", "necklace", "amulet", "choker", "collar"]),
   ("finger", ["ring", "band", "seal", "signet", "loop"]),
   ("back", ["cloak", "cape", "drape"]),
   ("ranged", ["wand", "thrown", "gun", "bow", "crossbow", "arrow", "bullet"]),
   ("off-hand", ["off-hand", "shield", "defender", "bulwark", "ward"]),
   ("trinket", trinket_keywords)]

/-- Weapon types with their keywords (`weapon_types`, insertion order). -/
def weapon_types : List (String × List String) :=
  [("one_hand_sword", ["sword", "blade", "souldrinker"]),
   ("one_hand_axe", ["axe", "no'kaled", "elements of death", "hand of morchok"]),
   ("one_hand_mace", ["mace", "morningstar", "maw of the dragonlord"]),
   ("two_hand_sword", ["greatsword", "two-handed sword", "gurthalak", "voice of the deeps"]),
   ("two_hand_axe", ["greataxe", "two-handed axe", "experimental specimen slicer"]),
   ("two_hand_mace", ["hammer", "maul", "two-handed mace", "ataraxis", "cudgel of the warmaster"]),
   ("dagger", ["dagger", "knife", "kris", "dirk", "blade of the unmaker", "rathrak",
     "poisonous mind", "electrowing dagger", "scalpel of unrelenting agony"]),
   ("fist", ["fist", "claw", "knuckle"]),
   ("polearm", ["polearm", "halberd", "pike", "kiril", "fury of beasts"]),
   ("staff", ["staff", "ti'tahk", "steps of time", "lightning rod",
     "spire of coagulated globules", "visage of the destroyer"]),
   ("bow", ["bow", "vishanka", "jaws of the earth"]),
   ("crossbow", ["crossbow", "horrifying horn arbalest"]),
   ("gun", ["gun", "rifle", "shotgun", "ruinblaster shotgun"]),
   ("wand", ["wand", "finger of zon'ozz"]),
   ("thrown", ["thrown", "razor saronite chip"]),
   ("shield", ["shield", "blackhorn's mighty bulwark", "timepiece of the bronze flight"]),
   ("off_hand", ["off-hand", "held in off-hand", "dragonfire orb", "ledger of revolting rituals"])]

/-- Token-specific slot importance (`token_slot_importance`). -/
def token_slot_importance : List (String × List (String × ℚ)) :=
  [("Vanquisher", [("head", 3/2), ("shoulder", 13/10), ("chest", 3/2),
     ("hands", 13/10), ("legs", 3/2)]),
   ("Conqueror", [("head", 3/2), ("shoulder", 13/10), ("chest", 3/2),
     ("hands", 13/10), ("legs", 3/2)]),
   ("Protector", [("head", 3/2), ("shoulder", 13/10), ("chest", 3/2),
     ("hands", 13/10), ("legs", 3/2)])]

/-- Hand-curated per-item overrides (`specific_item_mappings` as initialized). -/
def specific_item_mappings : List (String × String) :=
  [("vishanka, jaws of the earth", "bow"),
   ("rathrak, the poisonous mind", "dagger"),
   ("gurthalak, voice of the deeps", "two_hand_sword"),
   ("ti'tahk, the steps of time", "staff"),
   ("kiril, fury of beasts", "polearm"),
   ("souldrinker", "one_hand_sword"),
   ("no'kaled, the elements of death", "one_hand_axe"),
   ("blade of the unmaker", "dagger"),
   ("maw of the dragonlord", "one_hand_mace"),
   ("hand of morchok", "one_hand_axe"),
   ("vagaries of time", "one_hand_mace"),
   ("razor saronite chip", "thrown"),
   ("finger of zon'ozz", "wand"),
   ("horrifying horn arbalest", "crossbow"),
   ("scalpel of unrelenting agony", "dagger"),
   ("spire of coagulated globules", "staff"),
   ("experimental specimen slicer", "two_hand_axe"),
   ("electrowing dagger", "dagger"),
   ("lightning rod", "staff"),
   ("morningstar of heroic will", "one_hand_mace"),
   ("ledger of revolting rituals", "off_hand"),
   ("ataraxis, cudgel of the warmaster", "two_hand_mace"),
   ("visage of the destroyer", "staff"),
   ("blackhorn's mighty bulwark", "shield"),
   ("timepiece of the bronze flight", "shield"),
   ("ruinblaster shotgun", "gun"),
   ("spine of the thousand cuts", "one_hand_sword"),
   ("dragonfire orb", "off_hand")]

/-- The additional mappings installed by `update_specific_item_mappings`
(trinkets, then jewelry, then armor), which the program applies before
running the analysis. -/
def updated_additions : List (String × String) :=
  [("cunning of the cruel", "trinket"), ("indomitable pride", "trinket"),
   ("soulshifter vortex", "trinket"), ("creche of the final dragon", "trinket"),
   ("starcatcher compass", "trinket"), ("eye of unmaking", "trinket"),
   ("heart of unliving", "trinket"), ("resolve of undying", "trinket"),
   ("will of unbinding", "trinket"), ("wrath of unchaining", "trinket"),
   ("insignia of the corrupted mind", "trinket"), ("seal of the seven signs", "trinket"),
   ("petrified fungal heart", "neck"), ("curled twilight claw", "finger"),
   ("ring of the riven", "finger"), ("signet of grasping mouths", "finger"),
   ("imperfect specimens 27 and 28", "shoulder"), ("nightblind cinch", "waist"),
   ("interrogator's bloody footpads", "feet"), ("mindstrainer treads", "feet"),
   ("heartblood wristplates", "wrist"), ("treads of sordid screams", "feet"),
   ("bracers of looming darkness", "wrist"), ("janglespur jackboots", "feet"),
   ("shadow wing armbands", "wrist"), ("belt of the beloved companion", "waist"),
   ("goriona's collar", "waist"), ("gloves of liquid smoke", "hands"),
   ("molten blood footpads", "feet"), ("belt of shattered elementium", "waist"),
   ("backbreaker spaulders", "shoulder"), ("gauntlets of the golden thorn", "hands")]

/-- `specific_item_mappings` after `update_specific_item_mappings` (the keys
of the update are disjoint from the initial keys, so dict update is append). -/
def specific_item_mappings_updated : List (String × String) :=
  specific_item_mappings ++ updated_additions

/-- Coarse slot of a matched weapon subtype, as `determine_item_slot` maps it
in the weapon-keyword scanning branch. -/
def coarse_weapon_slot (wt : String) : String :=
  if wt = "bow" ∨ wt = "gun" ∨ wt = "crossbow" ∨ wt = "wand" ∨ wt = "thrown" then
    "ranged"
  else if wt = "shield" ∨ wt = "off_hand" then "off-hand"
  else "weapon"

/-- The tail of `determine_item_slot` after the specific-mapping and token
checks: trinket keywords, then weapon keyword scanning (with coarse weapon
slots), then the general slot-keyword table, else unknown. -/
def afterTokenSlot (low : String) : String :=
  if trinket_keywords.any (fun k => containsStr low k) then "trinket"
  else
    match weapon_types.find? (fun wt => wt.2.any fun k => containsStr low k) with
    | some wt => coarse_weapon_slot wt.1
    | none =>
      match slot_keywords.find? (fun sk => sk.2.any fun k => containsStr low k) with
      | some sk => sk.1
      | none => "unknown"

/-- The token-check step of `determine_item_slot`: return the token slot when
the item is a token with a known slot, else fall through to `afterTokenSlot`. -/
def determine_after_specific (name : String) : String :=
  match extract_token_info name with
  | (some _, some ts) => if ts = "unknown" then afterTokenSlot (strLower name) else ts
  | _ => afterTokenSlot (strLower name)

/-- `determine_item_slot` (with the updated specific mappings in force, as in
the program's run): specific per-item overrides first — a weapon subtype
collapses to "weapon" — then token slots, then keyword scanning. A missing or
empty name is "unknown". -/
def determine_item_slot : Option String → String
  | none => "unknown"
  | some name =>
    if name = "" then "unknown"
    else
      match alookup (strLower name) specific_item_mappings_updated with
      | some sty => if (alookup sty weapon_types).isSome then "weapon" else sty
      | none => determine_after_specific name

/-- Slot keyword table of `DataProcessor._determine_item_type_and_slot`
(capitalized keywords, matched case-sensitively). -/
def dp_slot_keywords : List (String × List String) :=
  [("Head", ["Crown", "Helm", "Hood", "Faceguard"]),
   ("Neck", ["Necklace", "Choker", "Pendant", "Amulet"]),
   ("Shoulder", ["Shoulderguards", "Spaulders", "Mantle", "Shoulders"]),
   ("Back", ["Cloak", "Cape", "Drape"]),
   ("Chest", ["Chestplate", "Robe", "Tunic", "Hauberk", "Vest", "Chest"]),
   ("Wrist", ["Bracers", "Wristguards", "Wristplates"]),
   ("Hands", ["Gloves", "Gauntlets", "Handguards", "Grips"]),
   ("Waist", ["Belt", "Girdle", "Waistguard"]),
   ("Legs", ["Leggings", "Legplates", "Legguards", "Greaves"]),
   ("Feet", ["Boots", "Treads", "Sabatons", "Stompers"]),
   ("Finger", ["Ring", "Band", "Seal", "Loop"]),
   ("Trinket", ["Trinket", "Charm", "Orb", "Heart", "Insignia", "Eye"]),
   ("Weapon", ["Sword", "Axe", "Mace", "Staff", "Dagger", "Bow", "Gun", "Wand",
     "Fist", "Glaive", "Spear", "Morningstar"]),
   ("Shield", ["Shield", "Bulwark", "Aegis"]),
   ("Relic", ["Idol", "Totem", "Libram", "Sigil"])]

/-- `DataProcessor._determine_token_slot`. -/
def dp_determine_token_slot (item : String) : String :=
  if containsStr item "Head" then "Head"
  else if containsStr item "Chest" then "Chest"
  else if containsStr item "Hands" || containsStr item "Gauntlets" then "Hands"
  else if containsStr item "Legs" || containsStr item "Leggings" then "Legs"
  else if containsStr item "Shoulder" then "Shoulder"
  else "unknown"

/-- `DataProcessor._determine_item_type_and_slot`. -/
def dp_determine_item_type_and_slot (item : String) : String × String :=
  if containsStr item "Corrupted Vanquisher" then ("token", dp_determine_token_slot item)
  else if containsStr item "Corrupted Conqueror" then ("token", dp_determine_token_slot item)
  else if containsStr item "Corrupted Protector" then ("token", dp_determine_token_slot item)
  else
    match dp_slot_keywords.find? (fun p => p.2.any fun k => containsStr item k) with
    | some p => ("gear", p.1)
    | none => ("unknown", "unknown")

/-- The per-candidate test of `identify_name_variations`: a loot-only name
matches a participation name when one is a prefix of the other, or their
diacritic-stripped forms are equal. -/
def name_match (ln pn : String) : Bool :=
  strStarts ln pn || strStarts pn ln || (stripDiacritics ln = stripDiacritics pn)

/-- The auto-detection loop of `identify_name_variations`: every loot name
not manually mapped and not itself a participation name is mapped to the
first participation name it matches (no match leaves it unmapped). -/
def auto_detect (lootNames partNames : List String) : List (String × String) :=
  lootNames.foldl
    (fun m ln =>
      if manual_keys.contains ln then m
      else if partNames.contains ln then m
      else
        match partNames.find? (fun pn => name_match ln pn) with
        | some pn => m ++ [(ln, pn)]
        | none => m)
    []

/-- The raw-name set a file list contributes to `identify_name_variations`:
every present IGN cell, lower-cased and trimmed, deduplicated. -/
def collect_names (files : List (String × List Row)) : List String :=
  ((((files.map (fun f => f.2)).flatten).filterMap (fun r => r.ign)).map
    (fun s => strTrim (strLower s))).dedup

/-- The analyzer's accumulated state: profiles, healers, boss attendance,
raid sizes, the auto-detected name mapping, loot counts, token counts and
the per-slot item tally (`player_item_slots` — a single tally per slot). -/
structure AnalyzerState where
  playerInfo : List (String × PInfo)
  healers : List String
  bossAttendance : List (String × Nat)
  raidSize : List (String × List String)
  nameMapping : List (String × String)
  lootCount : List (String × Nat)
  tokenCount : List (String × List (String × Nat))
  itemSlots : List (String × List (String × Nat))
deriving Repr, DecidableEq

/-- The analyzer's state before any ingestion. -/
def initState : AnalyzerState := ⟨[], [], [], [], [], [], [], []⟩

/-- The hard-coded profile injected for `ooverdeath` when missing. -/
def ooverdeathInfo : PInfo :=
  ⟨"over", "DK", "Blood", "Vanquisher", "Main Tank", "overdeath", "Strength"⟩

/-- Ingest one row of `all_participants.csv`: store the profile and track
healers (the name mapping is still empty at this phase). -/
def ingest_all_row (st : AnalyzerState) (row : Row) : AnalyzerState :=
  match extract_player_info [] row with
  | none => st
  | some (p, info) =>
    let st1 := { st with playerInfo := aset p info st.playerInfo }
    if info.role = "Healer" then { st1 with healers := addOnce p st1.healers }
    else st1

/-- Phase 1 of `load_data`: process `all_participants.csv` when present, then
inject the hard-coded `ooverdeath` profile if it is still missing. -/
def phase1 (st : AnalyzerState) : Option (List Row) → AnalyzerState
  | none => st
  | some rows =>
    let st1 := rows.foldl ingest_all_row st
    if (alookup "ooverdeath" st1.playerInfo).isSome then st1
    else { st1 with playerInfo := aset "ooverdeath" ooverdeathInfo st1.playerInfo }

/-- Bosses covered by a participants file: the first pattern of
`file_to_bosses` contained in the file name, else 0. -/
def bosses_for_file (filename : String) : Nat :=
  ((file_to_bosses.find? (fun pr => containsStr filename pr.1)).map
    (fun pr => pr.2)).getD 0

/-- Raid size of a file: "25" when its name contains "25man", else "10". -/
def raid_size_for_file (filename : String) : String :=
  if containsStr filename "25man" then "25" else "10"

/-- Set-insert a raid size into the per-player raid-size set. -/
def aaddSize (p sz : String) (l : List (String × List String)) :
    List (String × List String) :=
  aset p (addOnce sz ((alookup p l).getD [])) l

/-- Ingest one row of a per-raid participants file: accumulate the file's
boss count and raid size under the normalized name (the name mapping is
still empty at this phase of `load_data`). -/
def ingest_part_row (filename : String) (st : AnalyzerState) (row : Row) :
    AnalyzerState :=
  match extract_player_info [] row with
  | none => st
  | some (p, _) =>
    { st with
      bossAttendance := abump p (bosses_for_file filename) st.bossAttendance,
      raidSize := aaddSize p (raid_size_for_file filename) st.raidSize }

/-- The profile update a loot row performs: insert when absent, replace when
the stored class is still Unknown. -/
def update_info_from_loot (p : String) (info : PInfo) (st : AnalyzerState) :
    AnalyzerState :=
  match alookup p st.playerInfo with
  | none => { st with playerInfo := aset p info st.playerInfo }
  | some old =>
    if old.cls = "Unknown" then { st with playerInfo := aset p info st.playerInfo }
    else st

/-- The token step of loot ingestion: a token item bumps the token-set count
and, when its token slot is known, that slot of the (single) per-slot tally. -/
def ingest_loot_token (p item : String) (st : AnalyzerState) : AnalyzerState :=
  match extract_token_info item with
  | (some t, some ts) =>
    let st1 := { st with tokenCount := abump2 p t st.tokenCount }
    if ts = "unknown" then st1
    else { st1 with itemSlots := abump2 p ts st1.itemSlots }
  | _ => st

/-- The slot step of loot ingestion: whatever slot `determine_item_slot`
finds (for a token item this is its token slot again) bumps the per-slot
tally, unless unknown. -/
def ingest_loot_slot (p item : String) (st : AnalyzerState) : AnalyzerState :=
  let s := determine_item_slot (some item)
  if s = "unknown" then st
  else { st with itemSlots := abump2 p s st.itemSlots }

/-- The steps a loot row performs before item classification: total count,
profile update, healer tracking — in the source's order. -/
def loot_row_pre (p : String) (info : PInfo) (st : AnalyzerState) : AnalyzerState :=
  let st1 := { st with lootCount := abump p 1 st.lootCount }
  let st2 := update_info_from_loot p info st1
  if info.role = "Healer" then { st2 with healers := addOnce p st2.healers }
  else st2

/-- Ingest one loot row: total count, profile update, healer tracking, token
step, slot step — in the source's order. -/
def ingest_loot_row (mapping : List (String × String)) (st : AnalyzerState)
    (row : Row) : AnalyzerState :=
  match extract_player_info mapping row with
  | none => st
  | some (p, info) =>
    ingest_loot_slot p row.item (ingest_loot_token p row.item (loot_row_pre p info st))

/-- The full input of one analysis run: `all_participants.csv` when present,
the files ending in `_participants.csv` and the files ending in `_loot.csv`
(each with its name). In the source the file lists come from one directory
scan; in particular `all_participants.csv` itself ends in `_participants.csv`,
so a faithful instantiation that includes it on disk lists its rows both in
`allParticipants` and in `participantFiles` (where it contributes 0 bosses,
no pattern of `file_to_bosses` matching its name, and raid size "10"). -/
structure InputData where
  allParticipants : Option (List Row)
  participantFiles : List (String × List Row)
  lootFiles : List (String × List Row)
deriving Repr

/-- `load_data`: profiles, then participation, then name variations, then
loot. `identify_name_variations` runs before any loot file has been read —
`self.loot_data` is still the empty list at that point in the source — so
the loot-name set it scans is always empty. -/
def load_data (input : InputData) : AnalyzerState :=
  let st := phase1 initState input.allParticipants
  let st := input.participantFiles.foldl
    (fun s f => f.2.foldl (ingest_part_row f.1) s) st
  let mapping := auto_detect (collect_names ([] : List (String × List Row)))
    (collect_names input.participantFiles)
  let st := { st with nameMapping := mapping }
  input.lootFiles.foldl
    (fun s f => f.2.foldl (fun s2 r => ingest_loot_row mapping s2 r) s) st

/-- Whether a player occurs (after extraction) in a participants file's rows,
as the 25-man bonus scan of `calculate_attendance` checks it. -/
def player_in_rows (mapping : List (String × String)) (p : String)
    (rows : List Row) : Bool :=
  rows.any (fun row => ((extract_player_info mapping row).map (fun e => e.1)) = some p)

/-- Bosses the player attended in 25-man files (`twenty_five_man_bosses`). -/
def twenty_five_bosses (mapping : List (String × String))
    (files : List (String × List Row)) (p : String) : Nat :=
  files.foldl
    (fun acc f =>
      if containsStr f.1 "25man" && player_in_rows mapping p f.2 then
        acc + bosses_for_file f.1
      else acc)
    0

/-- One player's attendance percentage: base percentage, scaled by the 25-man
bonus proportionally to the player's 25-man boss share when the player has
attended a 25-man raid. -/
def attendance_entry (cfg : Config) (mapping : List (String × String))
    (files : List (String × List Row)) (st : AnalyzerState) (k : String)
    (v : Nat) : ℚ :=
  let base : ℚ := ((v : ℚ) / (total_bosses : ℚ)) * 100
  if ((alookup k st.raidSize).getD []).contains "25" then
    base * (1 + cfg.raid_25_percent_bonus *
      ((twenty_five_bosses mapping files k : ℚ) / (total_bosses : ℚ)))
  else base

/-- `calculate_attendance`: attendance percentage per attending player. -/
def calculate_attendance (cfg : Config) (mapping : List (String × String))
    (files : List (String × List Row)) (st : AnalyzerState) :
    List (String × ℚ) :=
  st.bossAttendance.map (fun pb => (pb.1, attendance_entry cfg mapping files st pb.1 pb.2))

/-- `calculate_loot_per_boss`: items received per boss attended (0 for a
player with no recorded bosses). -/
def calculate_loot_per_boss (st : AnalyzerState) : List (String × ℚ) :=
  st.lootCount.map (fun pc =>
    let b := (alookup pc.1 st.bossAttendance).getD 0
    (pc.1, if 0 < b then (pc.2 : ℚ) / (b : ℚ) else 0))

/-- The slot weight from `slot_categories`, default 1.0. -/
def slot_multiplier (slot : String) : ℚ := (alookup slot slot_categories).getD 1

/-- The token-specific slot importance when both the player's token set and
the slot are in `token_slot_importance`. -/
def token_slot_lookup (ptoken slot : String) : Option ℚ :=
  match alookup ptoken token_slot_importance with
  | none => none
  | some tbl => alookup slot tbl

/-- One step of the penalty loop of `get_loot_priority_recommendations`: a
slot with a token-importance entry for the player's token set routes its
whole weighted penalty to the token side, any other slot to the regular
side. -/
def slot_penalty_step (cfg : Config) (ptoken : String) (bosses : ℚ)
    (acc : ℚ × ℚ) (sc : String × Nat) : ℚ × ℚ :=
  if 0 < sc.2 then
    let base := ((sc.2 : ℚ) / bosses) * cfg.item_penalty_multiplier
    match token_slot_lookup ptoken sc.1 with
    | some tsm => (acc.1, acc.2 + base * tsm)
    | none => (acc.1 + base * slot_multiplier sc.1, acc.2)
  else acc

/-- The (regular, token) item penalties of one player's slot tally. -/
def slot_penalties (cfg : Config) (ptoken : String) (bosses : ℚ)
    (slots : List (String × Nat)) : ℚ × ℚ :=
  slots.foldl (slot_penalty_step cfg ptoken bosses) (0, 0)

/-- `attendance.get(player, 0) * attendance_weight`. -/
def attendance_score (cfg : Config) (att : List (String × ℚ)) (p : String) : ℚ :=
  ((alookup p att).getD 0) * cfg.attendance_weight

/-- The player's token set, `player_info.get(player, {}).get('Token', 'Unknown')`. -/
def player_token (st : AnalyzerState) (p : String) : String :=
  ((alookup p st.playerInfo).map (fun i => i.token)).getD "Unknown"

/-- The (regular, token) priority scores of one player. -/
def player_scores (cfg : Config) (st : AnalyzerState) (att : List (String × ℚ))
    (p : String) : ℚ × ℚ :=
  let asc := attendance_score cfg att p
  let bosses : ℚ := ((max 1 ((alookup p st.bossAttendance).getD 1) : Nat) : ℚ)
  let pen := slot_penalties cfg (player_token st p) bosses
    ((alookup p st.itemSlots).getD [])
  (asc - pen.1 - pen.2 * cfg.token_penalty_reduction,
   asc - pen.2 - pen.1 * cfg.token_penalty_reduction)

/-- `all_known_players`: the known profiles' keys, with `overdeath` removed
when `ooverdeath` is also present. -/
def all_known_players (st : AnalyzerState) : List String :=
  if (st.playerInfo.map (fun e => e.1)).dedup.contains "ooverdeath" &&
      (st.playerInfo.map (fun e => e.1)).dedup.contains "overdeath" then
    (st.playerInfo.map (fun e => e.1)).dedup.erase "overdeath"
  else (st.playerInfo.map (fun e => e.1)).dedup

/-- The scoring guard: only known players with an attendance entry that are
not PUGs are scored. -/
def scoring_guard (st : AnalyzerState) (p : String) : Bool :=
  (alookup p st.bossAttendance).isSome && !(is_pug (some p))

/-- Both priority scores for every player passing the scoring guard. -/
def compute_scores (cfg : Config) (st : AnalyzerState) (att : List (String × ℚ)) :
    List (String × ℚ × ℚ) :=
  (all_known_players st).filterMap (fun p =>
    if scoring_guard st p then some (p, player_scores cfg st att p) else none)

/-- Stable insertion for the descending sort on the regular score. -/
def insertByScore (x : String × ℚ × ℚ) :
    List (String × ℚ × ℚ) → List (String × ℚ × ℚ)
  | [] => [x]
  | y :: ys => if y.2.1 ≤ x.2.1 then x :: y :: ys else y :: insertByScore x ys

/-- Stable sort by regular score, descending — the unique stable order that
Python's `sorted(..., reverse=True)` also produces. -/
def sortByScoreDesc : List (String × ℚ × ℚ) → List (String × ℚ × ℚ)
  | [] => []
  | x :: xs => insertByScore x (sortByScoreDesc xs)

/-- One exported recommendation record. Formatted display strings are
omitted — each is a fixed rendering of a numeric field kept here — and
`raidSizes` keeps the raid-size set as stored (the source renders it
sorted and comma-joined for display). -/
structure Rec where
  player : String
  ign : String
  cls : String
  spec : String
  role : String
  token : String
  stat : String
  isHealer : Bool
  attendanceValue : ℚ
  bosses : Nat
  raidSizes : List String
  itemsReceived : Nat
  itemsPerBoss : ℚ
  score : ℚ
  tokenScore : ℚ
  tokenItems : Nat
deriving Repr, DecidableEq

/-- Build the output records for the sorted scored players that are (still)
known in `player_info`. -/
def build_recs (st : AnalyzerState) (att lpb : List (String × ℚ))
    (scored : List (String × ℚ × ℚ)) : List Rec :=
  scored.filterMap (fun x =>
    match alookup x.1 st.playerInfo with
    | none => none
    | some info =>
      some
        { player := x.1,
          ign := info.originalIgn,
          cls := info.cls,
          spec := info.spec,
          role := info.role,
          token := info.token,
          stat := gps info.cls info.spec,
          isHealer := st.healers.contains x.1,
          attendanceValue := (alookup x.1 att).getD 0,
          bosses := (alookup x.1 st.bossAttendance).getD 0,
          raidSizes := (alookup x.1 st.raidSize).getD ["N/A"],
          itemsReceived := (alookup x.1 st.lootCount).getD 0,
          itemsPerBoss := (alookup x.1 lpb).getD 0,
          score := x.2.1,
          tokenScore := x.2.2,
          tokenItems := (((alookup x.1 st.tokenCount).getD []).map (fun e => e.2)).sum })

/-- `get_loot_priority_recommendations`: score, sort descending by regular
score, and export records. -/
def get_loot_priority_recommendations (cfg : Config) (st : AnalyzerState)
    (att lpb : List (String × ℚ)) : List Rec :=
  build_recs st att lpb (sortByScoreDesc (compute_scores cfg st att))

/-- Total items distributed, `sum(player_loot_count.values())`. -/
def total_items (st : AnalyzerState) : Nat := (st.lootCount.map (fun e => e.2)).sum

/-- `analyze_and_print_report` as a function from input to the recommendation
sequence: when no loot was ingested the report stops before any
recommendation is produced (the empty sequence); otherwise the full
pipeline runs. -/
def analyze (cfg : Config) (input : InputData) : List Rec :=
  if (load_data input).lootCount.isEmpty then []
  else
    get_loot_priority_recommendations cfg (load_data input)
      (calculate_attendance cfg (load_data input).nameMapping
        input.participantFiles (load_data input))
      (calculate_loot_per_boss (load_data input))

/-! Association-list lemmas. -/

theorem mem_of_alookup {β : Type} {k : String} {v : β} :
    ∀ {l : List (String × β)}, alookup k l = some v → (k, v) ∈ l := by
  intro l
  induction l with
  | nil => intro h; cases h
  | cons e rest ih =>
    intro h
    unfold alookup at h
    by_cases he : e.1 = k
    · rw [if_pos he] at h
      injection h with h
      subst h; subst he
      exact List.mem_cons.mpr (Or.inl rfl)
    · rw [if_neg he] at h
      exact List.mem_cons.mpr (Or.inr (ih h))

theorem alookup_aset_self {β : Type} (k : String) (v : β) :
    ∀ (l : List (String × β)), alookup k (aset k v l) = some v := by
  intro l
  induction l with
  | nil => simp [aset, alookup]
  | cons e rest ih =>
    unfold aset
    by_cases he : e.1 = k
    · rw [if_pos he]; simp [alookup]
    · rw [if_neg he]; unfold alookup; rw [if_neg he]; exact ih

theorem alookup_abump_self (k : String) (n : Nat) :
    ∀ (l : List (String × Nat)),
      alookup k (abump k n l) = some ((alookup k l).getD 0 + n) := by
  intro l
  induction l with
  | nil => simp [abump, alookup]
  | cons e rest ih =>
    unfold abump
    by_cases he : e.1 = k
    · rw [if_pos he]; unfold alookup; rw [if_pos he, if_pos he]; rfl
    · rw [if_neg he]; unfold alookup; rw [if_neg he, if_neg he]; exact ih

theorem alookup_abump_ne (k k' : String) (n : Nat) (hne : k' ≠ k) :
    ∀ (l : List (String × Nat)), alookup k' (abump k n l) = alookup k' l := by
  intro l
  induction l with
  | nil =>
    unfold abump alookup
    rw [if_neg (fun h : k = k' => hne h.symm)]
    rfl
  | cons e rest ih =>
    unfold abump
    by_cases he : e.1 = k
    · rw [if_pos he]
      unfold alookup
      have : ¬ e.1 = k' := by rw [he]; exact fun h => hne h.symm
      rw [if_neg this, if_neg this]
    · rw [if_neg he]
      unfold alookup
      by_cases he' : e.1 = k'
      · rw [if_pos he', if_pos he']
      · rw [if_neg he', if_neg he']; exact ih

theorem alookup_abump2_self (p k : String)
    (l : List (String × List (String × Nat))) :
    alookup k ((alookup p (abump2 p k l)).getD []) =
      some ((alookup k ((alookup p l).getD [])).getD 0 + 1) := by
  unfold abump2
  rw [alookup_aset_self]
  simp [alookup_abump_self]

theorem alookup_abump2_ne (p k k' : String) (hne : k' ≠ k)
    (l : List (String × List (String × Nat))) :
    alookup k' ((alookup p (abump2 p k l)).getD []) =
      alookup k' ((alookup p l).getD []) := by
  unfold abump2
  rw [alookup_aset_self]
  simp [alookup_abump_ne k k' 1 hne]

theorem alookup_map_entry {γ : Type} (g : String → Nat → γ) (p : String) :
    ∀ (l : List (String × Nat)),
      alookup p (l.map (fun pb => (pb.1, g pb.1 pb.2))) =
        (alookup p l).map (fun v => g p v) := by
  intro l
  induction l with
  | nil => rfl
  | cons e rest ih =>
    simp only [List.map_cons]
    unfold alookup
    by_cases he : e.1 = p
    · rw [if_pos he, if_pos he]; rw [he]; rfl
    · rw [if_neg he, if_neg he]; exact ih

/-! The penalty fold of the Priority Scorer, characterized as two sums. -/

/-- Closed form of the regular-side penalty the scorer's loop accumulates:
the sum, over slots with a positive count and no token-importance entry for
the player's token set, of the weighted base penalty. -/
def reg_penalty_sum (cfg : Config) (ptoken : String) (bosses : ℚ)
    (slots : List (String × Nat)) : ℚ :=
  ((slots.filter (fun sc => decide (0 < sc.2) &&
      (token_slot_lookup ptoken sc.1).isNone)).map
    (fun sc => ((sc.2 : ℚ) / bosses) * cfg.item_penalty_multiplier *
      slot_multiplier sc.1)).sum

/-- Closed form of the token-side penalty the scorer's loop accumulates:
the sum, over slots with a positive count and a token-importance entry for
the player's token set, of the base penalty weighted by that entry. -/
def tok_penalty_sum (cfg : Config) (ptoken : String) (bosses : ℚ)
    (slots : List (String × Nat)) : ℚ :=
  ((slots.filter (fun sc => decide (0 < sc.2) &&
      (token_slot_lookup ptoken sc.1).isSome)).map
    (fun sc => ((sc.2 : ℚ) / bosses) * cfg.item_penalty_multiplier *
      ((token_slot_lookup ptoken sc.1).getD 0))).sum

theorem slot_penalties_foldl (cfg : Config) (ptoken : String) (bosses : ℚ) :
    ∀ (slots : List (String × Nat)) (acc : ℚ × ℚ),
      slots.foldl (slot_penalty_step cfg ptoken bosses) acc =
        (acc.1 + reg_penalty_sum cfg ptoken bosses slots,
         acc.2 + tok_penalty_sum cfg ptoken bosses slots) := by
  intro slots
  induction slots with
  | nil => intro acc; simp [reg_penalty_sum, tok_penalty_sum]
  | cons sc rest ih =>
    intro acc
    rw [List.foldl_cons, ih]
    unfold slot_penalty_step
    by_cases h0 : 0 < sc.2
    · rw [if_pos h0]
      cases hl : token_slot_lookup ptoken sc.1 with
      | some tsm =>
        have hA : reg_penalty_sum cfg ptoken bosses (sc :: rest) =
            reg_penalty_sum cfg ptoken bosses rest := by
          unfold reg_penalty_sum
          rw [List.filter_cons]
          have hc : (decide (0 < sc.2) &&
              (token_slot_lookup ptoken sc.1).isNone) = false := by
            rw [hl]; simp
          rw [hc]
          simp
        have hB : tok_penalty_sum cfg ptoken bosses (sc :: rest) =
            ((sc.2 : ℚ) / bosses) * cfg.item_penalty_multiplier * tsm +
              tok_penalty_sum cfg ptoken bosses rest := by
          unfold tok_penalty_sum
          rw [List.filter_cons]
          have hc : (decide (0 < sc.2) &&
              (token_slot_lookup ptoken sc.1).isSome) = true := by
            rw [hl]; simp [h0]
          rw [hc]
          simp [hl]
        rw [hA, hB]
        dsimp only
        rw [Prod.mk.injEq]
        exact ⟨rfl, by ring⟩
      | none =>
        have hA : reg_penalty_sum cfg ptoken bosses (sc :: rest) =
            ((sc.2 : ℚ) / bosses) * cfg.item_penalty_multiplier *
                slot_multiplier sc.1 +
              reg_penalty_sum cfg ptoken bosses rest := by
          unfold reg_penalty_sum
          rw [List.filter_cons]
          have hc : (decide (0 < sc.2) &&
              (token_slot_lookup ptoken sc.1).isNone) = true := by
            rw [hl]; simp [h0]
          rw [hc]
          simp
        have hB : tok_penalty_sum cfg ptoken bosses (sc :: rest) =
            tok_penalty_sum cfg ptoken bosses rest := by
          unfold tok_penalty_sum
          rw [List.filter_cons]
          have hc : (decide (0 < sc.2) &&
              (token_slot_lookup ptoken sc.1).isSome) = false := by
            rw [hl]; simp
          rw [hc]
          simp
        rw [hA, hB]
        dsimp only
        rw [Prod.mk.injEq]
        exact ⟨by ring, rfl⟩
    · rw [if_neg h0]
      have hA : reg_penalty_sum cfg ptoken bosses (sc :: rest) =
          reg_penalty_sum cfg ptoken bosses rest := by
        unfold reg_penalty_sum
        rw [List.filter_cons]
        have hc : (decide (0 < sc.2) &&
            (token_slot_lookup ptoken sc.1).isNone) = false := by
          simp [h0]
        rw [hc]
        simp
      have hB : tok_penalty_sum cfg ptoken bosses (sc :: rest) =
          tok_penalty_sum cfg ptoken bosses rest := by
        unfold tok_penalty_sum
        rw [List.filter_cons]
        have hc : (decide (0 < sc.2) &&
            (token_slot_lookup ptoken sc.1).isSome) = false := by
          simp [h0]
        rw [hc]
        simp
      rw [hA, hB]

/-! Sorting lemmas. -/

theorem insertByScore_perm (x : String × ℚ × ℚ) :
    ∀ (l : List (String × ℚ × ℚ)), List.Perm (insertByScore x l) (x :: l) := by
  intro l
  induction l with
  | nil => exact List.Perm.refl _
  | cons y ys ih =>
    unfold insertByScore
    split
    · exact List.Perm.refl _
    · exact List.Perm.trans (List.Perm.cons y ih) (List.Perm.swap x y ys)

theorem sortByScoreDesc_perm :
    ∀ (l : List (String × ℚ × ℚ)), List.Perm (sortByScoreDesc l) l := by
  intro l
  induction l with
  | nil => exact List.Perm.refl _
  | cons x xs ih =>
    exact List.Perm.trans (insertByScore_perm x _) (List.Perm.cons x ih)

/-! Facts about the scored list and the built records. -/

theorem filterMap_guard_map_fst {γ : Type} (c : String → Bool) (g : String → γ) :
    ∀ (l : List String),
      ((l.filterMap (fun p => if c p then some (p, g p) else none)).map
        (fun x => x.1)) = l.filter c := by
  intro l
  induction l with
  | nil => rfl
  | cons a rest ih => by_cases h : c a <;> simp [List.filterMap_cons, h, ih]

theorem compute_scores_map_fst (cfg : Config) (st : AnalyzerState)
    (att : List (String × ℚ)) :
    ((compute_scores cfg st att).map (fun x => x.1)) =
      (all_known_players st).filter (scoring_guard st) :=
  filterMap_guard_map_fst (scoring_guard st) (player_scores cfg st att) _

theorem mem_compute_scores {cfg : Config} {st : AnalyzerState}
    {att : List (String × ℚ)} {x : String × ℚ × ℚ}
    (h : x ∈ compute_scores cfg st att) : scoring_guard st x.1 = true := by
  unfold compute_scores at h
  rcases List.mem_filterMap.mp h with ⟨p, _, he⟩
  by_cases hc : scoring_guard st p
  · rw [if_pos hc] at he
    injection he with he
    rw [← he]
    exact hc
  · rw [if_neg hc] at he
    cases he

theorem mem_build_recs {st : AnalyzerState} {att lpb : List (String × ℚ)}
    {scored : List (String × ℚ × ℚ)} {r : Rec}
    (h : r ∈ build_recs st att lpb scored) :
    r.player ∈ scored.map (fun x => x.1) ∧
      (alookup r.player st.playerInfo).isSome = true := by
  unfold build_recs at h
  rcases List.mem_filterMap.mp h with ⟨x, hx, he⟩
  cases halk : alookup x.1 st.playerInfo with
  | none => rw [halk] at he; cases he
  | some info =>
    rw [halk] at he
    injection he with he
    have hp : r.player = x.1 := by rw [← he]
    rw [hp]
    exact ⟨List.mem_map.mpr ⟨x, hx, rfl⟩, by rw [halk]; rfl⟩

theorem build_recs_players_sublist (st : AnalyzerState)
    (att lpb : List (String × ℚ)) :
    ∀ (scored : List (String × ℚ × ℚ)),
      List.Sublist ((build_recs st att lpb scored).map (fun r => r.player))
        (scored.map (fun x => x.1)) := by
  intro scored
  induction scored with
  | nil => exact List.Sublist.refl _
  | cons x rest ih =>
    unfold build_recs
    rw [List.filterMap_cons]
    cases halk : alookup x.1 st.playerInfo with
    | none =>
      simp only [halk, List.map_cons]
      exact List.Sublist.cons _ ih
    | some info =>
      simp only [halk, List.map_cons]
      exact List.Sublist.cons₂ _ ih

theorem all_known_players_nodup (st : AnalyzerState) :
    (all_known_players st).Nodup := by
  unfold all_known_players
  split
  · exact (List.nodup_dedup _).erase _
  · exact List.nodup_dedup _

theorem analyze_mem_facts {cfg : Config} {input : InputData} {r : Rec}
    (h : r ∈ analyze cfg input) :
    (alookup r.player (load_data input).playerInfo).isSome = true ∧
      (alookup r.player (load_data input).bossAttendance).isSome = true ∧
      is_pug (some r.player) = false := by
  unfold analyze at h
  split at h
  · cases h
  · unfold get_loot_priority_recommendations at h
    obtain ⟨hmem, hinfo⟩ := mem_build_recs h
    have hperm :=
      (sortByScoreDesc_perm (compute_scores cfg (load_data input)
        (calculate_attendance cfg (load_data input).nameMapping
          input.participantFiles (load_data input)))).map (fun x => x.1)
    have hmem2 := hperm.mem_iff.mp hmem
    rcases List.mem_map.mp hmem2 with ⟨x, hx, hxp⟩
    have hg := mem_compute_scores hx
    rw [hxp] at hg
    simp only [scoring_guard, Bool.and_eq_true] at hg
    exact ⟨hinfo, hg.1, by simpa using hg.2⟩

/-! Preservation lemmas for the ingestion phases. -/

theorem update_info_itemSlots (p : String) (info : PInfo) (st : AnalyzerState) :
    (update_info_from_loot p info st).itemSlots = st.itemSlots := by
  unfold update_info_from_loot
  cases alookup p st.playerInfo with
  | none => rfl
  | some old =>
    dsimp only
    by_cases hc : old.cls = "Unknown"
    · rw [if_pos hc]
    · rw [if_neg hc]

theorem update_info_lootCount (p : String) (info : PInfo) (st : AnalyzerState) :
    (update_info_from_loot p info st).lootCount = st.lootCount := by
  unfold update_info_from_loot
  cases alookup p st.playerInfo with
  | none => rfl
  | some old =>
    dsimp only
    by_cases hc : old.cls = "Unknown"
    · rw [if_pos hc]
    · rw [if_neg hc]

theorem update_info_tokenCount (p : String) (info : PInfo) (st : AnalyzerState) :
    (update_info_from_loot p info st).tokenCount = st.tokenCount := by
  unfold update_info_from_loot
  cases alookup p st.playerInfo with
  | none => rfl
  | some old =>
    dsimp only
    by_cases hc : old.cls = "Unknown"
    · rw [if_pos hc]
    · rw [if_neg hc]

theorem ingest_all_row_lootCount (st : AnalyzerState) (row : Row) :
    (ingest_all_row st row).lootCount = st.lootCount := by
  unfold ingest_all_row
  cases extract_player_info [] row with
  | none => rfl
  | some pr => dsimp only; split <;> rfl

theorem ingest_part_row_lootCount (filename : String) (st : AnalyzerState)
    (row : Row) : (ingest_part_row filename st row).lootCount = st.lootCount := by
  unfold ingest_part_row
  cases extract_player_info [] row with
  | none => rfl
  | some pr => rfl

theorem foldl_preserve {α γ : Type} (proj : AnalyzerState → γ)
    (f : AnalyzerState → α → AnalyzerState)
    (hf : ∀ s a, proj (f s a) = proj s) :
    ∀ (l : List α) (st : AnalyzerState), proj (l.foldl f st) = proj st := by
  intro l
  induction l with
  | nil => intro st; rfl
  | cons a rest ih => intro st; rw [List.foldl_cons, ih, hf]

theorem phase1_lootCount (st : AnalyzerState) (o : Option (List Row)) :
    (phase1 st o).lootCount = st.lootCount := by
  cases o with
  | none => rfl
  | some rows =>
    unfold phase1
    dsimp only
    split
    · exact foldl_preserve (fun s => s.lootCount) _ ingest_all_row_lootCount rows st
    · exact foldl_preserve (fun s => s.lootCount) _ ingest_all_row_lootCount rows st

theorem participant_files_lootCount (files : List (String × List Row)) :
    ∀ (st : AnalyzerState),
      (files.foldl (fun s f => List.foldl (ingest_part_row f.1) s f.2) st).lootCount
        = st.lootCount := by
  induction files with
  | nil => intro st; rfl
  | cons f rest ih =>
    intro st
    rw [List.foldl_cons, ih]
    exact foldl_preserve (fun s => s.lootCount) _ (ingest_part_row_lootCount f.1) f.2 st

theorem load_data_lootCount_nil (input : InputData) (h : input.lootFiles = []) :
    (load_data input).lootCount = [] := by
  unfold load_data
  rw [h]
  simp only [List.foldl_nil]
  rw [show (∀ (st : AnalyzerState) (m : List (String × String)),
      ({ st with nameMapping := m } : AnalyzerState).lootCount = st.lootCount)
    from fun _ _ => rfl]
  rw [participant_files_lootCount input.participantFiles
    (phase1 initState input.allParticipants)]
  rw [phase1_lootCount]
  rfl

/-! Classifier lemmas. -/

theorem token_slot_of_cases (item : String) :
    token_slot_of item ∈
      (["head", "shoulder", "chest", "hands", "legs", "unknown"] : List String) := by
  unfold token_slot_of
  split_ifs <;> simp

theorem extract_token_slot_eq {name t ts : String}
    (h : extract_token_info name = (some t, some ts)) : ts = token_slot_of name := by
  unfold extract_token_info at h
  split at h
  · simp at h
  · split at h
    · simp at h
    · rw [Prod.mk.injEq] at h
      injection h.2 with h2
      exact h2.symm

theorem specific_values_ok :
    ∀ e ∈ specific_item_mappings_updated,
      (alookup e.2 weapon_types).isSome = true ∨
        (alookup e.2 slot_categories).isSome = true := by decide

theorem slot_keywords_keys_ok :
    ∀ e ∈ slot_keywords, (alookup e.1 slot_categories).isSome = true := by decide

theorem afterTokenSlot_ok (low : String) :
    afterTokenSlot low = "unknown" ∨
      (alookup (afterTokenSlot low) slot_categories).isSome = true := by
  unfold afterTokenSlot
  split
  · right; decide
  · cases hf : weapon_types.find? (fun wt => wt.2.any fun k => containsStr low k) with
    | some wt =>
      simp only [hf]
      right
      unfold coarse_weapon_slot
      split_ifs <;> decide
    | none =>
      simp only [hf]
      cases hs : slot_keywords.find? (fun sk => sk.2.any fun k => containsStr low k) with
      | some sk =>
        simp only [hs]
        right
        exact slot_keywords_keys_ok sk (List.mem_of_find?_eq_some hs)
      | none => simp [hs]

theorem determine_specific_weapon {name sty : String}
    (h1 : alookup (strLower name) specific_item_mappings_updated = some sty)
    (h2 : (alookup sty weapon_types).isSome = true) :
    determine_item_slot (some name) = "weapon" := by
  have hne : name ≠ "" := by
    intro he
    rw [he] at h1
    rw [show alookup (strLower "") specific_item_mappings_updated = none from by decide]
      at h1
    cases h1
  unfold determine_item_slot
  dsimp only
  rw [if_neg hne, h1]
  dsimp only
  rw [if_pos h2]

theorem determine_specific_nonweapon {name sty : String}
    (h1 : alookup (strLower name) specific_item_mappings_updated = some sty)
    (h2 : (alookup sty weapon_types).isSome = false) :
    determine_item_slot (some name) = sty := by
  have hne : name ≠ "" := by
    intro he
    rw [he] at h1
    rw [show alookup (strLower "") specific_item_mappings_updated = none from by decide]
      at h1
    cases h1
  unfold determine_item_slot
  dsimp only
  rw [if_neg hne, h1]
  dsimp only
  rw [if_neg (by rw [h2]; exact Bool.false_ne_true)]

theorem determine_token_slot_eq {name t ts : String}
    (hsp : alookup (strLower name) specific_item_mappings_updated = none)
    (hti : extract_token_info name = (some t, some ts)) (hts : ts ≠ "unknown") :
    determine_item_slot (some name) = ts := by
  have hne : name ≠ "" := by
    intro he
    rw [he] at hti
    rw [show extract_token_info "" = (none, none) from rfl] at hti
    simp at hti
  unfold determine_item_slot
  dsimp only
  rw [if_neg hne, hsp]
  dsimp only
  unfold determine_after_specific
  rw [hti]
  dsimp only
  rw [if_neg hts]

theorem determine_nontoken {name : String}
    (hsp : alookup (strLower name) specific_item_mappings_updated = none)
    (hB : (extract_token_info name).1 = none ∨
      (extract_token_info name).2 = some "unknown") :
    determine_item_slot (some name) = afterTokenSlot (strLower name) := by
  by_cases hne : name = ""
  · subst hne; decide
  · unfold determine_item_slot
    dsimp only
    rw [if_neg hne, hsp]
    dsimp only
    unfold determine_after_specific
    cases he : extract_token_info name with
    | mk o1 o2 =>
      cases o1 with
      | none => cases o2 <;> rfl
      | some t =>
        cases o2 with
        | none => rfl
        | some ts =>
          have hu : ts = "unknown" := by
            rcases hB with hB | hB
            · rw [he] at hB; simp at hB
            · rw [he] at hB; simpa using hB
          dsimp only
          rw [if_pos hu]

/-! Loot-row ingestion characterization (C2). -/

theorem loot_row_pre_lootCount (p : String) (info : PInfo) (st : AnalyzerState) :
    (loot_row_pre p info st).lootCount = abump p 1 st.lootCount := by
  unfold loot_row_pre
  dsimp only
  split
  · rw [show (∀ (s : AnalyzerState) (h : List String),
        ({ s with healers := h } : AnalyzerState).lootCount = s.lootCount)
      from fun _ _ => rfl]
    rw [update_info_lootCount]
  · rw [update_info_lootCount]

theorem loot_row_pre_itemSlots (p : String) (info : PInfo) (st : AnalyzerState) :
    (loot_row_pre p info st).itemSlots = st.itemSlots := by
  unfold loot_row_pre
  dsimp only
  split
  · rw [show (∀ (s : AnalyzerState) (h : List String),
        ({ s with healers := h } : AnalyzerState).itemSlots = s.itemSlots)
      from fun _ _ => rfl]
    rw [update_info_itemSlots]
  · rw [update_info_itemSlots]

theorem loot_row_pre_tokenCount (p : String) (info : PInfo) (st : AnalyzerState) :
    (loot_row_pre p info st).tokenCount = st.tokenCount := by
  unfold loot_row_pre
  dsimp only
  split
  · rw [show (∀ (s : AnalyzerState) (h : List String),
        ({ s with healers := h } : AnalyzerState).tokenCount = s.tokenCount)
      from fun _ _ => rfl]
    rw [update_info_tokenCount]
  · rw [update_info_tokenCount]

theorem ingest_loot_token_none {p item : String} {st : AnalyzerState}
    (h : (extract_token_info item).1 = none) : ingest_loot_token p item st = st := by
  unfold ingest_loot_token
  cases he : extract_token_info item with
  | mk o1 o2 =>
    rw [he] at h
    simp only at h
    subst h
    cases o2 <;> rfl

theorem ingest_loot_token_some {p item t ts : String} {st : AnalyzerState}
    (h : extract_token_info item = (some t, some ts)) (hts : ts ≠ "unknown") :
    ingest_loot_token p item st =
      { st with tokenCount := abump2 p t st.tokenCount,
                itemSlots := abump2 p ts st.itemSlots } := by
  unfold ingest_loot_token
  rw [h]
  dsimp only
  rw [if_neg hts]

theorem ingest_loot_token_lootCount (p item : String) (st : AnalyzerState) :
    (ingest_loot_token p item st).lootCount = st.lootCount := by
  unfold ingest_loot_token
  cases extract_token_info item with
  | mk o1 o2 =>
    cases o1 with
    | none => cases o2 <;> rfl
    | some t =>
      cases o2 with
      | none => rfl
      | some ts => dsimp only; split <;> rfl

theorem ingest_loot_slot_unknown {p item : String} {st : AnalyzerState}
    (h : determine_item_slot (some item) = "unknown") :
    ingest_loot_slot p item st = st := by
  unfold ingest_loot_slot
  dsimp only
  rw [h]
  rfl

theorem ingest_loot_slot_known {p item s : String} {st : AnalyzerState}
    (h : determine_item_slot (some item) = s) (hs : s ≠ "unknown") :
    ingest_loot_slot p item st = { st with itemSlots := abump2 p s st.itemSlots } := by
  unfold ingest_loot_slot
  dsimp only
  rw [h, if_neg hs]

theorem ingest_loot_slot_lootCount (p item : String) (st : AnalyzerState) :
    (ingest_loot_slot p item st).lootCount = st.lootCount := by
  unfold ingest_loot_slot
  dsimp only
  split <;> rfl

theorem ingest_loot_slot_tokenCount (p item : String) (st : AnalyzerState) :
    (ingest_loot_slot p item st).tokenCount = st.tokenCount := by
  unfold ingest_loot_slot
  dsimp only
  split <;> rfl

theorem ingest_loot_token_nameMapping (p item : String) (st : AnalyzerState) :
    (ingest_loot_token p item st).nameMapping = st.nameMapping := by
  unfold ingest_loot_token
  cases extract_token_info item with
  | mk o1 o2 =>
    cases o1 with
    | none => cases o2 <;> rfl
    | some t =>
      cases o2 with
      | none => rfl
      | some ts => dsimp only; split <;> rfl

theorem ingest_loot_slot_nameMapping (p item : String) (st : AnalyzerState) :
    (ingest_loot_slot p item st).nameMapping = st.nameMapping := by
  unfold ingest_loot_slot
  dsimp only
  split <;> rfl

theorem loot_row_pre_nameMapping (p : String) (info : PInfo) (st : AnalyzerState) :
    (loot_row_pre p info st).nameMapping = st.nameMapping := by
  unfold loot_row_pre update_info_from_loot
  dsimp only
  cases alookup p ({ st with lootCount := abump p 1 st.lootCount} : AnalyzerState).playerInfo with
  | none => split <;> rfl
  | some old =>
    dsimp only
    by_cases hc : old.cls = "Unknown"
    · rw [if_pos hc]; split <;> rfl
    · rw [if_neg hc]; split <;> rfl

theorem ingest_loot_row_nameMapping (m : List (String × String))
    (st : AnalyzerState) (row : Row) :
    (ingest_loot_row m st row).nameMapping = st.nameMapping := by
  unfold ingest_loot_row
  cases extract_player_info m row with
  | none => rfl
  | some pr =>
    dsimp only
    rw [ingest_loot_slot_nameMapping, ingest_loot_token_nameMapping,
      loot_row_pre_nameMapping]

theorem loot_files_nameMapping (m : List (String × String)) :
    ∀ (files : List (String × List Row)) (st : AnalyzerState),
      (files.foldl (fun s f => List.foldl (fun s2 r => ingest_loot_row m s2 r) s f.2)
        st).nameMapping = st.nameMapping := by
  intro files
  induction files with
  | nil => intro st; rfl
  | cons f rest ih =>
    intro st
    rw [List.foldl_cons, ih]
    exact foldl_preserve (fun s => s.nameMapping) _
      (fun s2 r => ingest_loot_row_nameMapping m s2 r) f.2 st

theorem extract_token_shape (name : String) :
    extract_token_info name = (none, none) ∨
      ∃ t, extract_token_info name = (some t, some (token_slot_of name)) := by
  by_cases hc : containsStr name "Corrupted"
  · cases hf : ["Vanquisher", "Conqueror", "Protector"].find?
        (fun t => containsStr name t) with
    | none =>
      left
      unfold extract_token_info
      rw [if_neg (by simp [hc]), hf]
    | some t =>
      right
      refine ⟨t, ?_⟩
      unfold extract_token_info
      rw [if_neg (by simp [hc]), hf]
  · left
    unfold extract_token_info
    rw [if_pos (by simp [hc])]

theorem calculate_attendance_lookup (cfg : Config)
    (m : List (String × String)) (files : List (String × List Row))
    (st : AnalyzerState) (p : String) (v : Nat)
    (h : alookup p st.bossAttendance = some v) :
    alookup p (calculate_attendance cfg m files st) =
      some (attendance_entry cfg m files st p v) := by
  unfold calculate_attendance
  rw [alookup_map_entry (attendance_entry cfg m files st) p st.bossAttendance, h]
  rfl

/-! Concrete inputs used by the claim theorems. -/

/-- A participation row for alice, a Vanquisher-token mage. -/
def aliceRow : Row :=
  ⟨some "alice", some "Mage", some "Frost", some "Vanquisher", some "DPS", none, ""⟩

/-- A loot row: alice receives a regular (non-token) head piece. -/
def aliceLootRow : Row :=
  ⟨some "alice", some "Mage", some "Frost", some "Vanquisher", some "DPS", none,
   "Hood of Hidden Flesh"⟩

/-- One 10-man raid (1 boss) attended by alice, and one regular head item
received by her. -/
def c1Input : InputData :=
  ⟨none, [("10man_madness_participants", [aliceRow])],
   [("10man_madness_loot", [aliceLootRow])]⟩

/-- A participation row for bob, a Vanquisher-token mage. -/
def bobRow : Row :=
  ⟨some "bob", some "Mage", some "Frost", some "Vanquisher", some "DPS", none, ""⟩

/-- A loot row: bob receives the Vanquisher head token. -/
def bobCrownRow : Row :=
  ⟨some "bob", some "Mage", some "Frost", some "Vanquisher", some "DPS", none,
   "Crown of the Corrupted Vanquisher"⟩

/-- One raid attended by bob and one token item received by him. -/
def c2Input : InputData :=
  ⟨none, [("10man_madness_participants", [bobRow])],
   [("25man_58_loot", [bobCrownRow])]⟩

/-- A loot row naming carl with an item no classification rule matches. -/
def bananaRow : Row := ⟨some "carl", none, none, none, none, none, "Banana"⟩

/-- A loot row under the raw name bobb, a loot-only spelling of bob. -/
def bobbLootRow : Row :=
  ⟨some "bobb", some "Mage", some "Frost", some "Vanquisher", some "DPS", none,
   "Vial of Shadows"⟩

/-- bob attends one raid; the loot file records his item under the loot-only
spelling bobb (which the §4.1 auto-detection rule would map to bob). -/
def c5Input : InputData :=
  ⟨some [bobRow], [("10man_madness_participants", [bobRow])],
   [("25man_58_loot", [bobbLootRow])]⟩

/-- A raw name carrying a PUG marker. -/
def pugRow : Row :=
  ⟨some "Randomguy-PUG", none, none, none, none, none, "Vial of Shadows"⟩

/-- Four 10-man files of 2 bosses each, all attended by alice: 8 of 8 bosses,
no 25-man attendance, no loot. -/
def c7Input : InputData :=
  ⟨none,
   [("10man_war_spine_sunday_2402_participants", [aliceRow]),
    ("10man_war_spine_monday_2502_participants", [aliceRow]),
    ("10man_war_spine_sunday_0103_participants", [aliceRow]),
    ("10man_war_spine_monday_0203_participants", [aliceRow])], []⟩

/-- Participation but no loot files at all. -/
def c8Input : InputData :=
  ⟨none, [("10man_madness_participants", [aliceRow])], []⟩

/-- The scorer configuration of the C7 scenario (`attendanceWeight = 0.5`,
everything else as shipped). -/
def c7Config : Config := { attendance_weight := 1 / 2 }

/-! The claims. -/

/-- The analyzer state `load_data` produces on `c1Input`, written out. -/
def c1State : AnalyzerState :=
  ⟨[("alice", ⟨"alice", "Mage", "Frost", "Vanquisher", "DPS", "alice", "Intellect"⟩)],
   [], [("alice", 1)], [("alice", ["10"])], [], [("alice", 1)], [],
   [("alice", [("head", 1)])]⟩

/-- C1 counterexample: the claim says the regular-item count of a slot feeds
`regularPenalty`. On `c1Input` alice is a Vanquisher-token player whose only
item is a regular (non-token) head piece after 1 boss: per the claim,
regularPenalty = (1/1)·40·1.5 = 60, tokenPenalty = 0, so regularScore =
12.5·0.4 − 60 − 0·0.5 = −55. The code instead routes the whole head-slot
count to the token penalty (head has a Vanquisher token-importance entry),
producing regularScore = −25 ≠ −55 (and tokenScore = −55). -/
theorem c1_cex :
    (analyze defaultConfig c1Input).map (fun r => (r.player, r.score, r.tokenScore)) =
      [("alice", -25, -55)] ∧
    extract_token_info "Hood of Hidden Flesh" = (none, none) ∧
    alookup "alice" (load_data c1Input).itemSlots = some [("head", 1)] ∧
    player_token (load_data c1Input) "alice" = "Vanquisher" ∧
    ((5 : ℚ) - 60 - 0 * defaultConfig.token_penalty_reduction = -55) ∧
    ((-25 : ℚ) ≠ -55) := by
  have hst : load_data c1Input = c1State := by decide
  refine ⟨?_, by decide, by rw [hst]; decide, by rw [hst]; decide,
    by norm_num [defaultConfig], by norm_num⟩
  unfold analyze
  rw [hst]
  rw [if_neg (by decide : ¬(c1State.lootCount.isEmpty = true))]
  have hatt : calculate_attendance defaultConfig c1State.nameMapping
      c1Input.participantFiles c1State =
      [("alice", attendance_entry defaultConfig c1State.nameMapping
        c1Input.participantFiles c1State "alice" 1)] := rfl
  have hae : attendance_entry defaultConfig c1State.nameMapping
      c1Input.participantFiles c1State "alice" 1 = 25 / 2 := by
    unfold attendance_entry
    rw [if_neg (by decide)]
    norm_num [total_bosses]
  rw [hatt, hae]
  unfold get_loot_priority_recommendations
  have hcs : compute_scores defaultConfig c1State [("alice", 25 / 2)] =
      [("alice", player_scores defaultConfig c1State [("alice", 25 / 2)] "alice")] := rfl
  rw [hcs]
  have hps : player_scores defaultConfig c1State [("alice", 25 / 2)] "alice" =
      (-25, -55) := by
    unfold player_scores attendance_score player_token slot_penalties
      slot_penalty_step token_slot_lookup slot_multiplier
    simp [alookup, token_slot_importance, slot_categories, defaultConfig]
    norm_num
  rw [hps]
  rfl

/-- C1 (amended): for every scored identity the scorer walks the single
per-slot tally; a slot with a positive count whose slot is listed in the
player's token-set's importance table contributes its entire
baseSlotPenalty × tokenSlotMultiplier to tokenPenalty, and any other slot
with a positive count contributes its entire baseSlotPenalty × slotMultiplier
to regularPenalty, where baseSlotPenalty = (count / max(1, bossesAttended)) ×
itemPenaltyMultiplier; then regularScore = attendanceScore − regularPenalty −
tokenPenalty × tokenPenaltyReduction and tokenScore = attendanceScore −
tokenPenalty − regularPenalty × tokenPenaltyReduction. -/
theorem c1_amended_scoring :
    (∀ (cfg : Config) (ptoken : String) (bosses : ℚ) (slots : List (String × Nat)),
        slot_penalties cfg ptoken bosses slots =
          (reg_penalty_sum cfg ptoken bosses slots,
           tok_penalty_sum cfg ptoken bosses slots)) ∧
    (∀ (cfg : Config) (st : AnalyzerState) (att : List (String × ℚ)) (p : String),
        player_scores cfg st att p =
          (attendance_score cfg att p -
             (slot_penalties cfg (player_token st p)
               ((max 1 ((alookup p st.bossAttendance).getD 1) : Nat) : ℚ)
               ((alookup p st.itemSlots).getD [])).1 -
             (slot_penalties cfg (player_token st p)
               ((max 1 ((alookup p st.bossAttendance).getD 1) : Nat) : ℚ)
               ((alookup p st.itemSlots).getD [])).2 * cfg.token_penalty_reduction,
           attendance_score cfg att p -
             (slot_penalties cfg (player_token st p)
               ((max 1 ((alookup p st.bossAttendance).getD 1) : Nat) : ℚ)
               ((alookup p st.itemSlots).getD [])).2 -
             (slot_penalties cfg (player_token st p)
               ((max 1 ((alookup p st.bossAttendance).getD 1) : Nat) : ℚ)
               ((alookup p st.itemSlots).getD [])).1 * cfg.token_penalty_reduction)) := by
  constructor
  · intro cfg ptoken bosses slots
    unfold slot_penalties
    rw [slot_penalties_foldl]
    simp
  · intro cfg st att p
    rfl

/-- C2 counterexample: the claim says each loot record increments at most one
slot counter exactly once, with token and regular counts tallied separately.
On `c2Input` a single token loot record ("Crown of the Corrupted Vanquisher")
leaves bob's only slot tally at head = 2 — the slot is bumped once by the
token-tracking step and once more by `determine_item_slot` — and there is no
separate token/regular split. -/
theorem c2_cex :
    (load_data c2Input).lootCount = [("bob", 1)] ∧
    alookup "bob" (load_data c2Input).itemSlots = some [("head", 2)] ∧
    alookup "bob" (load_data c2Input).tokenCount = some [("Vanquisher", 1)] ∧
    (2 : Nat) ≠ 1 := by
  refine ⟨by decide, by decide, by decide, by decide⟩

/-- C2 (amended): the Loot Ledger keeps a single per-slot tally. For every
ingested loot record of player `p`: the total-items count is always
incremented; a token item with a known token slot increments the token-set
count once and that slot's (single) counter twice — once via token tracking
and once via `determine_item_slot`, which returns the token slot again when
the item is not in the per-item override table; a non-token item with a known
slot increments that slot's counter once; an item with an unknown slot leaves
the slot tally unchanged (only the total count grows). -/
theorem c2_amended_ingestion (mapping : List (String × String))
    (st : AnalyzerState) (row : Row) (p : String) (info : PInfo)
    (hex : extract_player_info mapping row = some (p, info)) :
    (ingest_loot_row mapping st row).lootCount = abump p 1 st.lootCount ∧
    (∀ t ts, extract_token_info row.item = (some t, some ts) → ts ≠ "unknown" →
      alookup (strLower row.item) specific_item_mappings_updated = none →
      alookup ts ((alookup p (ingest_loot_row mapping st row).itemSlots).getD []) =
          some ((alookup ts ((alookup p st.itemSlots).getD [])).getD 0 + 2) ∧
        alookup t ((alookup p (ingest_loot_row mapping st row).tokenCount).getD []) =
          some ((alookup t ((alookup p st.tokenCount).getD [])).getD 0 + 1)) ∧
    (∀ s, (extract_token_info row.item).1 = none →
      determine_item_slot (some row.item) = s → s ≠ "unknown" →
      alookup s ((alookup p (ingest_loot_row mapping st row).itemSlots).getD []) =
        some ((alookup s ((alookup p st.itemSlots).getD [])).getD 0 + 1)) ∧
    ((extract_token_info row.item).1 = none →
      determine_item_slot (some row.item) = "unknown" →
      (ingest_loot_row mapping st row).itemSlots = st.itemSlots) := by
  have hrow : ingest_loot_row mapping st row =
      ingest_loot_slot p row.item
        (ingest_loot_token p row.item (loot_row_pre p info st)) := by
    unfold ingest_loot_row
    rw [hex]
  refine ⟨?_, ?_, ?_, ?_⟩
  · rw [hrow, ingest_loot_slot_lootCount, ingest_loot_token_lootCount,
      loot_row_pre_lootCount]
  · intro t ts hti hts hsp
    have hdet := determine_token_slot_eq hsp hti hts
    rw [hrow, ingest_loot_token_some hti hts, ingest_loot_slot_known hdet hts]
    dsimp only
    rw [loot_row_pre_itemSlots, loot_row_pre_tokenCount]
    constructor
    · rw [alookup_abump2_self, alookup_abump2_self]
      rfl
    · rw [alookup_abump2_self]
  · intro s hti1 hdet hs
    rw [hrow, ingest_loot_token_none hti1, ingest_loot_slot_known hdet hs]
    dsimp only
    rw [loot_row_pre_itemSlots, alookup_abump2_self]
  · intro hti1 hdet
    rw [hrow, ingest_loot_token_none hti1, ingest_loot_slot_unknown hdet,
      loot_row_pre_itemSlots]

/-- C2 witness: the three ingestion shapes at concrete records — a token item
(head counter +2), a regular head item (+1), and an unclassifiable item
(slot tally unchanged). -/
theorem c2_amended_witness :
    alookup "head"
        ((alookup "bob" (ingest_loot_row [] initState bobCrownRow).itemSlots).getD []) =
      some ((alookup "head" ((alookup "bob" initState.itemSlots).getD [])).getD 0 + 2) ∧
    alookup "head"
        ((alookup "alice" (ingest_loot_row [] initState aliceLootRow).itemSlots).getD []) =
      some ((alookup "head" ((alookup "alice" initState.itemSlots).getD [])).getD 0 + 1) ∧
    (ingest_loot_row [] initState bananaRow).itemSlots = initState.itemSlots :=
  ⟨((c2_amended_ingestion [] initState bobCrownRow "bob"
      (mkInfo bobCrownRow "bob" "bob") (by decide)).2.1
      "Vanquisher" "head" (by decide) (by decide) (by decide)).1,
   (c2_amended_ingestion [] initState aliceLootRow "alice"
      (mkInfo aliceLootRow "alice" "alice") (by decide)).2.2.1
      "head" (by decide) (by decide) (by decide),
   (c2_amended_ingestion [] initState bananaRow "carl"
      (mkInfo bananaRow "carl" "carl") (by decide)).2.2.2
      (by decide) (by decide)⟩

/-- C3 counterexample: the claim says both classifiers return (token, "head")
for "Crown of the Corrupted Vanquisher". The DataProcessor classifier returns
item type "token" but slot "unknown" — its `_determine_token_slot` has no
"Crown" keyword — so it does not agree with the enhanced classifier's "head"
(not even up to capitalization). -/
theorem c3_cex :
    dp_determine_item_type_and_slot "Crown of the Corrupted Vanquisher" =
      ("token", "unknown") ∧
    ("unknown" : String) ≠ "head" ∧ ("unknown" : String) ≠ "Head" := by
  refine ⟨by decide, by decide, by decide⟩

/-- C3 (amended): for "Crown of the Corrupted Vanquisher" the enhanced
analyzer classifies (token Vanquisher, slot "head") — both through
`extract_token_info` and through `determine_item_slot` — while the
DataProcessor classifies it as item type "token" with slot "unknown";
the two implementations agree that the item is a token but disagree on
its slot. -/
theorem c3_amended_classifiers :
    extract_token_info "Crown of the Corrupted Vanquisher" =
      (some "Vanquisher", some "head") ∧
    determine_item_slot (some "Crown of the Corrupted Vanquisher") = "head" ∧
    dp_determine_item_type_and_slot "Crown of the Corrupted Vanquisher" =
      ("token", "unknown") := by
  refine ⟨by decide, by decide, by decide⟩

/-- C4 counterexample: the claim says an item whose classification is decided
by a weapon match through the per-item override table gets the coarse slot of
its subtype ("ranged" for thrown). "Razor Saronite Chip" is overridden to the
weapon subtype "thrown", yet `determine_item_slot` returns "weapon", not
"ranged": the override branch collapses every weapon subtype to "weapon". -/
theorem c4_cex :
    alookup "razor saronite chip" specific_item_mappings_updated = some "thrown" ∧
    (alookup "thrown" weapon_types).isSome = true ∧
    determine_item_slot (some "Razor Saronite Chip") = "weapon" ∧
    ("weapon" : String) ≠ "ranged" := by
  refine ⟨by decide, by decide, by decide, by decide⟩

/-- C4 (amended): the coarse weapon-subtype mapping (bow/gun/crossbow/wand/
thrown → "ranged"; shield/off-hand → "off-hand"; all else → "weapon") applies
only on the weapon keyword-scanning path; an item reached through the
per-item override table whose override is a weapon subtype always returns
"weapon", regardless of the subtype. -/
theorem c4_amended_weapon_slots :
    (∀ (name sty : String),
        alookup (strLower name) specific_item_mappings_updated = some sty →
        (alookup sty weapon_types).isSome = true →
        determine_item_slot (some name) = "weapon") ∧
    (∀ (name : String) (wt : String × List String),
        alookup (strLower name) specific_item_mappings_updated = none →
        ((extract_token_info name).1 = none ∨
          (extract_token_info name).2 = some "unknown") →
        trinket_keywords.any (fun k => containsStr (strLower name) k) = false →
        weapon_types.find? (fun w => w.2.any fun k => containsStr (strLower name) k) =
          some wt →
        determine_item_slot (some name) = coarse_weapon_slot wt.1) := by
  constructor
  · intro name sty h1 h2
    exact determine_specific_weapon h1 h2
  · intro name wt hsp hB hC hD
    rw [determine_nontoken hsp hB]
    unfold afterTokenSlot
    rw [if_neg (by simp [hC]), hD]

/-- C4 witness: the override path at a thrown weapon gives "weapon"; the
keyword path at a bow-keyword item gives the coarse "ranged" slot. -/
theorem c4_amended_witness :
    determine_item_slot (some "Vishanka, Jaws of the Earth") = "weapon" ∧
    determine_item_slot (some "Longbow") = coarse_weapon_slot "bow" :=
  ⟨c4_amended_weapon_slots.1 "Vishanka, Jaws of the Earth" "bow"
     (by decide) (by decide),
   c4_amended_weapon_slots.2 "Longbow" ("bow", ["bow", "vishanka", "jaws of the earth"])
     (by decide) (by decide) (by decide) (by decide)⟩

/-- C5: the auto-detected alias merge is dead code, so the claimed invariant
fails. `identify_name_variations` scans `self.loot_data` for loot names, but
`load_data` calls it before any loot file has been read, so the loot-name set
is always empty and the auto mapping stays empty for every input (first
conjunct). The §4.1 rule itself would map the loot-only spelling "bobb" to
the participation name "bob" (second conjunct), yet with the empty mapping
"bobb" resolves to itself, its loot is tallied under "bobb" while bob's
attendance sits under "bob", and the emitted record for bob shows 0 items
received although his loot record is in the input. -/
theorem c5_alias_detection_dead :
    (∀ (input : InputData), (load_data input).nameMapping = []) ∧
    alookup "bobb" (auto_detect ["bobb"] ["bob"]) = some "bob" ∧
    normalize_plain [] "bobb" = "bobb" ∧
    alookup "bobb" (load_data c5Input).lootCount = some 1 ∧
    alookup "bob" (load_data c5Input).lootCount = none ∧
    alookup "bob" (load_data c5Input).bossAttendance = some 1 ∧
    alookup "bobb" (load_data c5Input).bossAttendance = none ∧
    (analyze defaultConfig c5Input).map (fun r => (r.player, r.itemsReceived)) =
      [("bob", 0)] := by
  refine ⟨?_, by decide, by decide, by decide, by decide, by decide, by decide,
    by decide⟩
  intro input
  unfold load_data
  dsimp only
  rw [loot_files_nameMapping]
  rfl

/-- Rows whose raw name is a PUG are dropped by extraction. -/
theorem extract_player_info_pug {mapping : List (String × String)} {row : Row}
    (h : is_pug row.ign = true) : extract_player_info mapping row = none := by
  unfold extract_player_info
  cases hg : row.ign with
  | none => rfl
  | some ign =>
    rw [hg] at h
    dsimp only
    rw [if_pos h]

/-- C6: a player whose raw name contains a configured PUG marker never
appears in the output. First, a participation or loot record whose raw name
is a PUG (by marker substring or by the exclusion list) leaves the analyzer
state unchanged — such records contribute nothing even when present in the
input. Second, every emitted RecommendationRecord's identity satisfies
`is_pug = false` — in particular no emitted identity contains a PUG marker. -/
theorem c6_pug_never_emitted :
    (∀ (filename : String) (st : AnalyzerState) (row : Row)
        (mapping : List (String × String)), is_pug row.ign = true →
        ingest_part_row filename st row = st ∧ ingest_loot_row mapping st row = st) ∧
    (∀ (cfg : Config) (input : InputData),
        (analyze cfg input).all (fun r => !(is_pug (some r.player))) = true) := by
  constructor
  · intro filename st row mapping h
    constructor
    · unfold ingest_part_row
      rw [extract_player_info_pug h]
    · unfold ingest_loot_row
      rw [extract_player_info_pug h]
  · intro cfg input
    rw [List.all_eq_true]
    intro r hr
    have hfact := (analyze_mem_facts hr).2.2
    simp [hfact]

/-- C6 witness: a record bearing the marker-carrying raw name
"Randomguy-PUG" is ignored by both ingestion paths. -/
theorem c6_witness :
    ingest_part_row "10man_madness_participants" initState pugRow = initState ∧
    ingest_loot_row [] initState pugRow = initState :=
  c6_pug_never_emitted.1 "10man_madness_participants" initState pugRow [] (by decide)

/-- C7: a fresh identity with 8 of 8 bosses attended, no 25-man attendance,
zero items and attendanceWeight = 0.5 gets attendance percentage 100,
attendanceScore = 100 × 0.5 = 50, regularPenalty = 0 and regularScore = 50. -/
theorem c7_fresh_identity (input : InputData) (p : String)
    (h8 : alookup p (load_data input).bossAttendance = some 8)
    (h25 : (((alookup p (load_data input).raidSize).getD []).contains "25") = false)
    (hs : (alookup p (load_data input).itemSlots).getD [] = []) :
    alookup p (calculate_attendance c7Config (load_data input).nameMapping
        input.participantFiles (load_data input)) = some 100 ∧
    attendance_score c7Config (calculate_attendance c7Config
        (load_data input).nameMapping input.participantFiles (load_data input)) p = 50 ∧
    (slot_penalties c7Config (player_token (load_data input) p)
        ((max 1 ((alookup p (load_data input).bossAttendance).getD 1) : Nat) : ℚ)
        ((alookup p (load_data input).itemSlots).getD [])).1 = 0 ∧
    (player_scores c7Config (load_data input)
        (calculate_attendance c7Config (load_data input).nameMapping
          input.participantFiles (load_data input)) p).1 = 50 := by
  have hatt : alookup p (calculate_attendance c7Config (load_data input).nameMapping
      input.participantFiles (load_data input)) = some 100 := by
    rw [calculate_attendance_lookup c7Config (load_data input).nameMapping
      input.participantFiles (load_data input) p 8 h8]
    congr 1
    unfold attendance_entry
    rw [if_neg (by rw [h25]; exact Bool.false_ne_true)]
    norm_num [total_bosses]
  have h50 : attendance_score c7Config (calculate_attendance c7Config
      (load_data input).nameMapping input.participantFiles (load_data input)) p = 50 := by
    unfold attendance_score
    rw [hatt]
    norm_num [c7Config]
  refine ⟨hatt, h50, ?_, ?_⟩
  · rw [hs]
    rfl
  · unfold player_scores
    dsimp only
    rw [hs, h50]
    rw [show (∀ (c : Config) (t : String) (b : ℚ),
        slot_penalties c t b [] = (0, 0)) from fun _ _ _ => rfl]
    norm_num

/-- C7 witness: alice attends four 10-man raids of two bosses each (8 of 8),
receives nothing, and her regular priority score is 50. -/
theorem c7_witness :
    (player_scores c7Config (load_data c7Input)
      (calculate_attendance c7Config (load_data c7Input).nameMapping
        c7Input.participantFiles (load_data c7Input)) "alice").1 = 50 :=
  (c7_fresh_identity c7Input "alice" (by decide) (by decide) (by decide)).2.2.2

/-- C8: an input with no loot records yields the empty recommendation
sequence — the report stops before producing any recommendation, and the
analysis itself is a total function, so nothing is raised — and the caller
can distinguish this case by the total items count being zero. -/
theorem c8_empty_input (cfg : Config) (input : InputData)
    (h : input.lootFiles = []) :
    analyze cfg input = [] ∧ total_items (load_data input) = 0 := by
  have hl := load_data_lootCount_nil input h
  constructor
  · unfold analyze
    rw [if_pos (by rw [hl]; rfl)]
  · unfold total_items
    rw [hl]
    rfl

/-- C8 witness: participation without any loot file produces no
recommendations and a zero total-items count. -/
theorem c8_witness :
    analyze defaultConfig c8Input = [] ∧ total_items (load_data c8Input) = 0 :=
  c8_empty_input defaultConfig c8Input rfl

/-- C9: `determine_item_slot` is total and every slot it returns is either
"unknown" or a key of the `slot_categories` weight table, so the scorer's
weight lookup (default 1.0) never falls back to the default on a slot this
classifier recorded: the lookup finds a table entry and `slot_multiplier`
returns exactly that entry. -/
theorem c9_classifier_totality (item : Option String) :
    determine_item_slot item = "unknown" ∨
      ∃ q, alookup (determine_item_slot item) slot_categories = some q ∧
        slot_multiplier (determine_item_slot item) = q := by
  have main : determine_item_slot item = "unknown" ∨
      (alookup (determine_item_slot item) slot_categories).isSome = true := by
    cases item with
    | none => left; rfl
    | some name =>
      by_cases hne : name = ""
      · left; subst hne; decide
      · cases hsp : alookup (strLower name) specific_item_mappings_updated with
        | some sty =>
          by_cases hw : (alookup sty weapon_types).isSome = true
          · rw [determine_specific_weapon hsp hw]
            right; decide
          · have hw' : (alookup sty weapon_types).isSome = false := by
              cases hvv : (alookup sty weapon_types).isSome
              · rfl
              · exact absurd hvv hw
            rw [determine_specific_nonweapon hsp hw']
            rcases specific_values_ok (strLower name, sty) (mem_of_alookup hsp)
              with hv | hv
            · rw [hw'] at hv
              cases hv
            · right; exact hv
        | none =>
          rcases extract_token_shape name with hti | ⟨t, hti⟩
          · rw [determine_nontoken hsp (by rw [hti]; exact Or.inl rfl)]
            exact afterTokenSlot_ok _
          · by_cases hu : token_slot_of name = "unknown"
            · rw [determine_nontoken hsp (by rw [hti, hu]; exact Or.inr rfl)]
              exact afterTokenSlot_ok _
            · rw [determine_token_slot_eq hsp hti hu]
              right
              have hmem := token_slot_of_cases name
              simp only [List.mem_cons, List.not_mem_nil, or_false] at hmem
              rcases hmem with hm | hm | hm | hm | hm | hm
              · rw [hm]; decide
              · rw [hm]; decide
              · rw [hm]; decide
              · rw [hm]; decide
              · rw [hm]; decide
              · exact absurd hm hu
  rcases main with h | h
  · exact Or.inl h
  · right
    rcases Option.isSome_iff_exists.mp h with ⟨q, hq⟩
    refine ⟨q, hq, ?_⟩
    unfold slot_multiplier
    rw [hq]
    rfl

/-- C10: in every recommendation sequence the engine produces, each canonical
identity appears at most once, and every emitted record's identity is a key
of the player-info map and has a boss-attendance entry. -/
theorem c10_output_invariants (cfg : Config) (input : InputData) :
    ((analyze cfg input).map (fun r => r.player)).Nodup ∧
    (analyze cfg input).all (fun r =>
      (alookup r.player (load_data input).playerInfo).isSome &&
        (alookup r.player (load_data input).bossAttendance).isSome) = true := by
  constructor
  · unfold analyze
    split
    · simp
    · unfold get_loot_priority_recommendations
      have h1 : ((compute_scores cfg (load_data input)
          (calculate_attendance cfg (load_data input).nameMapping
            input.participantFiles (load_data input))).map (fun x => x.1)).Nodup := by
        rw [compute_scores_map_fst]
        exact (all_known_players_nodup _).filter _
      have h2 := ((sortByScoreDesc_perm (compute_scores cfg (load_data input)
          (calculate_attendance cfg (load_data input).nameMapping
            input.participantFiles (load_data input)))).map
        (fun x => x.1)).nodup_iff.mpr h1
      exact h2.sublist (build_recs_players_sublist _ _ _ _)
  · rw [List.all_eq_true]
    intro r hr
    have hfact := analyze_mem_facts hr
    simp [hfact.1, hfact.2.1]

end DragonSoul
